import Mathlib

/- Shallow embedding of the react-gimbal core (src/utils.ts and src/gimbal.tsx).
   JavaScript numbers are modelled as rationals; Math.round x is modelled as
   the floor of x + 1/2 (ties go toward positive infinity, as in JavaScript),
   and Math.floor as the integer floor. -/

/-- The prefer field of a limit rule: either the percent source or the pixels
source is preferred. -/
inductive Prefer where
  | percent
  | pixels
  deriving DecidableEq, Repr

/-- IGimbalEvent from types.ts: the before and after sizes, each formatted as
a pixel length string. -/
structure GimbalEvent where
  after : String
  before : String
  deriving DecidableEq, Repr

/-- Partial IGimbalRule from types.ts: a user supplied constraint with
optional percent, pixels and prefer fields. -/
structure GimbalRule where
  percent : Option ℚ := none
  pixels : Option ℚ := none
  prefer : Option Prefer := none
  deriving DecidableEq, Repr

/-- JavaScript Math.round: floor of x + 1/2. -/
def jsRound (q : ℚ) : ℤ := ⌊q + 1 / 2⌋

/-- utils.ts getRangedValue: returns value respecting the maximum and minimum
limits. -/
def getRangedValue (value maximum minimum : ℚ) : ℚ :=
  if value > minimum then (if value < maximum then value else maximum) else minimum

/-- The template literal composing a number with the px unit. -/
def formatPx (q : ℚ) : String := toString q ++ "px"

/-- utils.ts getPercentageFromPixels: Math.round of pixels over limit times
1000, divided by 10. -/
def getPercentageFromPixels (pixels limit : ℚ) : ℚ :=
  (jsRound (pixels / limit * 1000) : ℚ) / 10

/-- utils.ts getPixelsFromPercentage: Math.round of limit times percentage
over 100. -/
def getPixelsFromPercentage (percentage limit : ℚ) : ℚ :=
  (jsRound (limit * (percentage / 100)) : ℚ)

/-- utils.ts getPreferredValue: the larger of the two values when preferLarger
holds, otherwise the smaller. -/
def getPreferredValue (valueA valueB : ℚ) (preferLarger : Bool) : ℚ :=
  if preferLarger then (if valueA > valueB then valueA else valueB)
  else (if valueA > valueB then valueB else valueA)

/-- The maximum selected inside getAbsoluteBounds before validation: the
preferred value of the percent derived maximum and the pixel maximum, with
preferLarger exactly when the preference is pixels (utils.ts lines 79 and
83 to 87, with the TypeScript default arguments resolved). -/
def rawMaximum (absoluteLimit : ℚ) (absoluteMaxPx relativeMaxPc : Option ℚ)
    (preferredMax : Option Prefer) : ℚ :=
  getPreferredValue
    (getPixelsFromPercentage (relativeMaxPc.getD 100) absoluteLimit)
    (absoluteMaxPx.getD absoluteLimit)
    (decide (preferredMax = some Prefer.pixels))

/-- The minimum selected inside getAbsoluteBounds before validation: the
preferred value of the percent derived minimum and the pixel minimum, with
preferLarger exactly when the preference is percent (utils.ts lines 80 and
89 to 93, with the TypeScript default arguments resolved). -/
def rawMinimum (absoluteLimit : ℚ) (absoluteMinPx relativeMinPc : Option ℚ)
    (preferredMin : Option Prefer) : ℚ :=
  getPreferredValue
    (getPixelsFromPercentage (relativeMinPc.getD 0) absoluteLimit)
    (absoluteMinPx.getD 0)
    (decide (preferredMin = some Prefer.percent))

/-- utils.ts getAbsoluteBounds: resolves the rule set into the triple of
maximum, minimum and gimbal offset, validating the maximum against the limit
from above and the minimum against zero from below, and complementing both
against the limit when the axis is reversed. -/
def getAbsoluteBounds (isReverse : Bool) (absoluteLimit gimbalOffset : ℚ)
    (absoluteMaxPx absoluteMinPx relativeMaxPc relativeMinPc : Option ℚ)
    (preferredMax preferredMin : Option Prefer) : ℚ × ℚ × ℚ :=
  let maximum := rawMaximum absoluteLimit absoluteMaxPx relativeMaxPc preferredMax
  let minimum := rawMinimum absoluteLimit absoluteMinPx relativeMinPc preferredMin
  let validatedMaximum := if maximum > absoluteLimit then absoluteLimit else maximum
  let validatedMinimum := if minimum > 0 then minimum else 0
  (if isReverse then absoluteLimit - validatedMinimum else validatedMaximum,
   if isReverse then absoluteLimit - validatedMaximum else validatedMinimum,
   gimbalOffset)

/-- utils.ts getOffsets: clamps the position into the bounds, subtracts the
handle factor, and returns the before and after sizes formatted as pixel
strings. -/
def getOffsets (limit position maximum minimum factor : ℚ) : GimbalEvent :=
  let offset := getRangedValue position maximum minimum - factor
  { after := formatPx (limit - offset), before := formatPx offset }

/-- gimbal.tsx getResizedValues: reads the resolved bound triple and calls
getOffsets with the container size as limit and the position minus the
container size (limit.current at index 0) as position. -/
def getResizedValues (limitSize : ℚ) (bound : ℚ × ℚ × ℚ) (position : ℚ) :
    GimbalEvent :=
  getOffsets limitSize (position - limitSize) bound.1 bound.2.1 bound.2.2

/-- gimbal.tsx bounds useEffect (lines 185 to 205): derives the preferences
from the rules, computes the gimbal offset as the floored half size of the
handle element, and calls getAbsoluteBounds on the container size plus that
offset. -/
def computeBounds (isReverse : Bool) (limitSize divElSize : ℚ)
    (maximum minimum : GimbalRule) : ℚ × ℚ × ℚ :=
  let maxPreferred :=
    maximum.prefer.getD (if maximum.pixels = none then Prefer.percent else Prefer.pixels)
  let minPreferred :=
    minimum.prefer.getD (if minimum.pixels = none then Prefer.percent else Prefer.pixels)
  let gimbalOffset : ℚ := ((⌊if divElSize ≠ 0 then divElSize / 2 else 0⌋ : ℤ) : ℚ)
  getAbsoluteBounds isReverse (limitSize + gimbalOffset) gimbalOffset
    maximum.pixels minimum.pixels maximum.percent minimum.percent
    (some maxPreferred) (some minPreferred)

/-- JavaScript truthiness of an optional number: undefined and 0 are falsy. -/
def truthy : Option ℚ → Bool
  | none => false
  | some x => decide (x ≠ 0)

/-- gimbal.tsx DragState: the click reference. -/
inductive DragState where
  | DRAG
  | IDLE
  | WAIT
  deriving DecidableEq, Fintype, Repr

/-- gimbal.tsx MouseState: the mouse reference only ever holds ACTIVE or
IDLE; the remaining constructors are the event tags of handleMouseEvent. -/
inductive MouseState where
  | ACTIVE
  | IDLE
  | GIMBAL_DOWN
  | GLOBAL_DOWN
  | GLOBAL_UP
  deriving DecidableEq, Fintype, Repr

/-- The mutable state of one Gimbal instance that the claims quantify over:
the mouse reference and the click reference. -/
structure GState where
  mouse : MouseState
  click : DragState
  deriving DecidableEq, Fintype, Repr

/-- The events that drive the state machine: pointer down on the handle,
global pointer up, global pointer down, the mouseTimeout timer firing,
double click, and pointer movement. -/
inductive GEvent where
  | gimbalDown
  | globalUp
  | globalDown
  | timer
  | doubleClick
  | mouseMove
  deriving DecidableEq, Fintype, Repr

/-- gimbal.tsx state transitions: handleMouseEvent for the pointer events
(with setActive and setIdle inlined), the guarded timeout body from
setActive, the click reset from handleDoubleClick, and handleMouseMovement
which never changes state. -/
def step (e : GEvent) (s : GState) : GState :=
  match e with
  | GEvent.gimbalDown =>
      if s.mouse = MouseState.IDLE then
        { mouse := MouseState.ACTIVE, click := DragState.WAIT }
      else s
  | GEvent.globalUp =>
      if s.mouse ≠ MouseState.ACTIVE then s
      else if s.click = DragState.WAIT then { s with click := DragState.DRAG }
      else { s with mouse := MouseState.IDLE }
  | GEvent.globalDown =>
      if s.mouse = MouseState.ACTIVE then { s with mouse := MouseState.IDLE } else s
  | GEvent.timer =>
      if s.click = DragState.WAIT then { s with click := DragState.IDLE } else s
  | GEvent.doubleClick => { s with click := DragState.IDLE }
  | GEvent.mouseMove => s

/-- The initial state: both references start IDLE. -/
def initState : GState := { mouse := MouseState.IDLE, click := DragState.IDLE }

/-- Runs a list of events from the initial state. -/
def run (es : List GEvent) : GState := es.foldl (fun s e => step e s) initState

/-- gimbal.tsx handleDoubleClick: resets the click reference to IDLE, then
emits nothing when neither the percent nor the pixels of the default rule is
truthy, and otherwise emits the resized values at the default position
(pixels when defined, else the percent converted against the container
size). -/
def handleDoubleClick (defaultPosition : GimbalRule) (limitSize : ℚ)
    (bound : ℚ × ℚ × ℚ) : DragState × Option GimbalEvent :=
  if !(truthy defaultPosition.percent || truthy defaultPosition.pixels) then
    (DragState.IDLE, none)
  else
    let position :=
      match defaultPosition.pixels with
      | some px => px
      | none => getPixelsFromPercentage (defaultPosition.percent.getD 50) limitSize
    (DragState.IDLE, some (getResizedValues limitSize bound position))

/-- C1: the claimed scenario fails on the code: with containerLimit 500,
maximum percent 80, minimum pixels 50 and no prefer fields, the resolved
minimum is 0, not the claimed 50 (the defaulted minimum preference pixels
selects the smaller of the percent derived 0 and the pixel 50). -/
theorem c1_counterexample :
    (computeBounds false 500 0 { percent := some 80 } { pixels := some 50 }).2.1 ≠ 50 := by
  norm_num +decide [computeBounds, getAbsoluteBounds, rawMaximum, rawMinimum,
    getPreferredValue, getPixelsFromPercentage, jsRound]

/-- C1 amended: for containerLimit 500, maximum percent 80, minimum pixels 50,
no prefer fields and isReverse false, the bounds resolve to maximum 400 and
minimum 0, and the resize computation at absolute pointer position 30 emits
before 0px and after 500px (the code subtracts the container size from the
pointer coordinate and then clamps to the resolved minimum). -/
theorem c1_amended_eval :
    computeBounds false 500 0 { percent := some 80 } { pixels := some 50 } = (400, 0, 0) ∧
    getResizedValues 500 (computeBounds false 500 0 { percent := some 80 } { pixels := some 50 }) 30
      = { after := formatPx 500, before := formatPx 0 } ∧
    formatPx 500 = "500px" ∧ formatPx 0 = "0px" := by
  have h : computeBounds false 500 0 { percent := some 80 } { pixels := some 50 } = (400, 0, 0) := by
    norm_num +decide [computeBounds, getAbsoluteBounds, rawMaximum, rawMinimum,
      getPreferredValue, getPixelsFromPercentage, jsRound, Prod.ext_iff]
  refine ⟨h, ?_, rfl, rfl⟩
  rw [h]
  norm_num [getResizedValues, getOffsets, getRangedValue, GimbalEvent.mk.injEq, formatPx]

/-- C2: the claim fails on the code: with pixel maximum 500, percent maximum
80 of limit 500 (candidate 400) and preference percent, the effective maximum
is 400, not the larger candidate 500 — when the preference is not pixels the
smaller candidate wins. -/
theorem c2_counterexample :
    rawMaximum 500 (some 500) (some 80) (some Prefer.percent) = 400 ∧
    (getAbsoluteBounds false 500 0 (some 500) none (some 80) none (some Prefer.percent) none).1 = 400 ∧
    max (getPixelsFromPercentage 80 500) 500 = 500 ∧ (400 : ℚ) ≠ 500 := by
  norm_num +decide [getAbsoluteBounds, rawMaximum, rawMinimum,
    getPreferredValue, getPixelsFromPercentage, jsRound]

/-- C2 amended: the effective maximum in bounds resolution is the larger of
the percent derived candidate and the pixel candidate exactly when the
preference is pixels, and the smaller of the two otherwise — so the
preference decides the outcome whenever the two candidates differ, not only
on ties. -/
theorem c2_amended (absoluteLimit : ℚ) (absoluteMaxPx relativeMaxPc : Option ℚ)
    (preferredMax : Option Prefer) :
    rawMaximum absoluteLimit absoluteMaxPx relativeMaxPc preferredMax =
      if preferredMax = some Prefer.pixels then
        max (getPixelsFromPercentage (relativeMaxPc.getD 100) absoluteLimit)
          (absoluteMaxPx.getD absoluteLimit)
      else
        min (getPixelsFromPercentage (relativeMaxPc.getD 100) absoluteLimit)
          (absoluteMaxPx.getD absoluteLimit) := by
  have hmax : ∀ x y : ℚ, (if x > y then x else y) = max x y := by
    intro x y
    rcases le_or_lt x y with h' | h'
    · rw [if_neg (not_lt.mpr h'), max_eq_right h']
    · rw [if_pos h', max_eq_left h'.le]
  have hmin : ∀ x y : ℚ, (if x > y then y else x) = min x y := by
    intro x y
    rcases le_or_lt x y with h' | h'
    · rw [if_neg (not_lt.mpr h'), min_eq_left h']
    · rw [if_pos h', min_eq_right h'.le]
  unfold rawMaximum getPreferredValue
  by_cases h : preferredMax = some Prefer.pixels
  · rw [if_pos (decide_eq_true h), if_pos h, hmax]
  · rw [if_neg (fun hh => h (of_decide_eq_true hh)), if_neg h, hmin]

/-- C4: the claim fails on the code: with minimum 10 greater than maximum 5,
clamping the value 20 returns the maximum 5, not the minimum 10. -/
theorem c4_counterexample :
    (10 : ℚ) > 5 ∧ getRangedValue 20 5 10 = 5 ∧ (5 : ℚ) ≠ 10 := by
  norm_num [getRangedValue]

/-- C4 amended: when the bounds are inverted (minimum greater than maximum),
the range clamp returns the minimum for values not exceeding the minimum and
the maximum for values greater than the minimum. -/
theorem c4_amended (value maximum minimum : ℚ) (h : minimum > maximum) :
    getRangedValue value maximum minimum =
      if value > minimum then maximum else minimum := by
  unfold getRangedValue
  split_ifs <;> first | rfl | linarith

/-- C4 amended witness at value 20, maximum 5, minimum 10. -/
theorem c4_witness :
    (10 : ℚ) > 5 ∧ getRangedValue 20 5 10 = if (20 : ℚ) > 10 then 5 else 10 :=
  ⟨by norm_num, c4_amended 20 5 10 (by norm_num)⟩

/-- C7: for every limit, position, bounds and handle offset factor, the
emitted event consists of a before value and an after value whose sum is
exactly the limit passed to getOffsets. -/
theorem c7_before_after_sum (limit position maximum minimum factor : ℚ) :
    ∃ b a : ℚ,
      getOffsets limit position maximum minimum factor
        = { after := formatPx a, before := formatPx b } ∧ b + a = limit :=
  ⟨getRangedValue position maximum minimum - factor,
   limit - (getRangedValue position maximum minimum - factor), rfl, by ring⟩

/-- C8: for every rule set, limit and gimbal offset, the maximum component of
the bounds resolved with isReverse true equals the limit minus the minimum
component of the bounds resolved with isReverse false from the same inputs. -/
theorem c8_reversal (absoluteLimit gimbalOffset : ℚ)
    (absoluteMaxPx absoluteMinPx relativeMaxPc relativeMinPc : Option ℚ)
    (preferredMax preferredMin : Option Prefer) :
    (getAbsoluteBounds true absoluteLimit gimbalOffset absoluteMaxPx absoluteMinPx
        relativeMaxPc relativeMinPc preferredMax preferredMin).1
      = absoluteLimit -
        (getAbsoluteBounds false absoluteLimit gimbalOffset absoluteMaxPx absoluteMinPx
          relativeMaxPc relativeMinPc preferredMax preferredMin).2.1 := by
  rfl

/-- C3: the claim fails on the code: with containerLimit 3, pixel minimum 5,
percent minimum 200 preferring percent (effective minimum 6), and pixel
maximum 20 preferring pixels (effective maximum 20), the hypotheses hold
(limit nonnegative, effective minimum 6 below effective maximum 20), yet the
resolved bounds are maximum 3 and minimum 6, so minimum exceeds maximum —
the code never clamps the minimum against the container limit. -/
theorem c3_counterexample :
    (0 : ℚ) ≤ 3 ∧
    rawMinimum 3 (some 5) (some 200) (some Prefer.percent)
      ≤ rawMaximum 3 (some 20) none (some Prefer.pixels) ∧
    ¬ ((getAbsoluteBounds false 3 0 (some 20) (some 5) none (some 200)
          (some Prefer.pixels) (some Prefer.percent)).2.1
        ≤ (getAbsoluteBounds false 3 0 (some 20) (some 5) none (some 200)
          (some Prefer.pixels) (some Prefer.percent)).1) := by
  norm_num +decide [getAbsoluteBounds, rawMaximum, rawMinimum,
    getPreferredValue, getPixelsFromPercentage, jsRound]

/-- C3 amended: for every containerLimit at least 0 and every rule set whose
effective minimum does not exceed its effective maximum before clamping,
provided additionally that the effective minimum does not exceed the
containerLimit and the effective maximum is nonnegative, the resolved bounds
satisfy 0 at most minimum, minimum at most maximum, and maximum at most
containerLimit, for both axis directions. -/
theorem c3_amended (isReverse : Bool) (absoluteLimit gimbalOffset : ℚ)
    (absoluteMaxPx absoluteMinPx relativeMaxPc relativeMinPc : Option ℚ)
    (preferredMax preferredMin : Option Prefer)
    (hL : 0 ≤ absoluteLimit)
    (hmm : rawMinimum absoluteLimit absoluteMinPx relativeMinPc preferredMin
      ≤ rawMaximum absoluteLimit absoluteMaxPx relativeMaxPc preferredMax)
    (hmL : rawMinimum absoluteLimit absoluteMinPx relativeMinPc preferredMin ≤ absoluteLimit)
    (hM0 : 0 ≤ rawMaximum absoluteLimit absoluteMaxPx relativeMaxPc preferredMax) :
    0 ≤ (getAbsoluteBounds isReverse absoluteLimit gimbalOffset absoluteMaxPx absoluteMinPx
          relativeMaxPc relativeMinPc preferredMax preferredMin).2.1 ∧
    (getAbsoluteBounds isReverse absoluteLimit gimbalOffset absoluteMaxPx absoluteMinPx
        relativeMaxPc relativeMinPc preferredMax preferredMin).2.1
      ≤ (getAbsoluteBounds isReverse absoluteLimit gimbalOffset absoluteMaxPx absoluteMinPx
          relativeMaxPc relativeMinPc preferredMax preferredMin).1 ∧
    (getAbsoluteBounds isReverse absoluteLimit gimbalOffset absoluteMaxPx absoluteMinPx
        relativeMaxPc relativeMinPc preferredMax preferredMin).1 ≤ absoluteLimit := by
  cases isReverse
  · show
      0 ≤ (if rawMinimum absoluteLimit absoluteMinPx relativeMinPc preferredMin > 0 then
            rawMinimum absoluteLimit absoluteMinPx relativeMinPc preferredMin else 0) ∧
      (if rawMinimum absoluteLimit absoluteMinPx relativeMinPc preferredMin > 0 then
          rawMinimum absoluteLimit absoluteMinPx relativeMinPc preferredMin else 0)
        ≤ (if rawMaximum absoluteLimit absoluteMaxPx relativeMaxPc preferredMax > absoluteLimit then
            absoluteLimit else rawMaximum absoluteLimit absoluteMaxPx relativeMaxPc preferredMax) ∧
      (if rawMaximum absoluteLimit absoluteMaxPx relativeMaxPc preferredMax > absoluteLimit then
          absoluteLimit else rawMaximum absoluteLimit absoluteMaxPx relativeMaxPc preferredMax)
        ≤ absoluteLimit
    split_ifs <;> refine ⟨by linarith, by linarith, by linarith⟩
  · show
      0 ≤ absoluteLimit -
          (if rawMaximum absoluteLimit absoluteMaxPx relativeMaxPc preferredMax > absoluteLimit then
            absoluteLimit else rawMaximum absoluteLimit absoluteMaxPx relativeMaxPc preferredMax) ∧
      absoluteLimit -
          (if rawMaximum absoluteLimit absoluteMaxPx relativeMaxPc preferredMax > absoluteLimit then
            absoluteLimit else rawMaximum absoluteLimit absoluteMaxPx relativeMaxPc preferredMax)
        ≤ absoluteLimit -
          (if rawMinimum absoluteLimit absoluteMinPx relativeMinPc preferredMin > 0 then
            rawMinimum absoluteLimit absoluteMinPx relativeMinPc preferredMin else 0) ∧
      absoluteLimit -
          (if rawMinimum absoluteLimit absoluteMinPx relativeMinPc preferredMin > 0 then
            rawMinimum absoluteLimit absoluteMinPx relativeMinPc preferredMin else 0)
        ≤ absoluteLimit
    split_ifs <;> refine ⟨by linarith, by linarith, by linarith⟩

/-- C3 amended witness: containerLimit 500, pixel maximum 400 preferring
pixels, pixel minimum 50 preferring percent, forward axis. -/
theorem c3_witness :
    (0 : ℚ) ≤ 500 ∧
    rawMinimum 500 (some 50) none (some Prefer.percent)
      ≤ rawMaximum 500 (some 400) none (some Prefer.pixels) ∧
    rawMinimum 500 (some 50) none (some Prefer.percent) ≤ 500 ∧
    (0 : ℚ) ≤ rawMaximum 500 (some 400) none (some Prefer.pixels) ∧
    (0 ≤ (getAbsoluteBounds false 500 0 (some 400) (some 50) none none
            (some Prefer.pixels) (some Prefer.percent)).2.1 ∧
     (getAbsoluteBounds false 500 0 (some 400) (some 50) none none
         (some Prefer.pixels) (some Prefer.percent)).2.1
       ≤ (getAbsoluteBounds false 500 0 (some 400) (some 50) none none
           (some Prefer.pixels) (some Prefer.percent)).1 ∧
     (getAbsoluteBounds false 500 0 (some 400) (some 50) none none
         (some Prefer.pixels) (some Prefer.percent)).1 ≤ 500) :=
  ⟨by norm_num,
   by norm_num +decide [rawMaximum, rawMinimum, getPreferredValue, getPixelsFromPercentage, jsRound],
   by norm_num +decide [rawMinimum, getPreferredValue, getPixelsFromPercentage, jsRound],
   by norm_num +decide [rawMaximum, getPreferredValue, getPixelsFromPercentage, jsRound],
   c3_amended false 500 0 (some 400) (some 50) none none
     (some Prefer.pixels) (some Prefer.percent)
     (by norm_num)
     (by norm_num +decide [rawMaximum, rawMinimum, getPreferredValue, getPixelsFromPercentage, jsRound])
     (by norm_num +decide [rawMinimum, getPreferredValue, getPixelsFromPercentage, jsRound])
     (by norm_num +decide [rawMaximum, getPreferredValue, getPixelsFromPercentage, jsRound])⟩

/-- C5: evaluation of the code at the failing input: a double click with
default percent 50, container size 500, leading offset 0 and resolved bounds
maximum 500, minimum 0, factor 0 emits before 0px and after 500px, not the
claimed 250px and 250px, because getResizedValues subtracts the container
size (limit.current at index 0) from the position instead of the leading
edge offset (limit.current at index 1). -/
theorem c5_code_eval :
    handleDoubleClick { percent := some 50 } 500 (500, 0, 0)
      = (DragState.IDLE, some { after := formatPx 500, before := formatPx 0 }) ∧
    formatPx 500 = "500px" ∧ formatPx 0 = "0px" := by
  refine ⟨?_, rfl, rfl⟩
  norm_num [handleDoubleClick, truthy, getResizedValues, getOffsets, getRangedValue,
    getPixelsFromPercentage, jsRound, Prod.ext_iff, GimbalEvent.mk.injEq, formatPx]

/-- C6: the claim fails on the code: the state reached from the initial
state by a pointer down on the handle followed by the mouseTimeout timer
firing has the mouse reference ACTIVE while the click reference is IDLE, so
ActivationState Active is not equivalent to DragState different from Idle. -/
theorem c6_counterexample :
    ¬ ((run [GEvent.gimbalDown, GEvent.timer]).mouse = MouseState.ACTIVE
        ↔ (run [GEvent.gimbalDown, GEvent.timer]).click ≠ DragState.IDLE) := by
  decide

/-- C6 amended: the equivalence is not an invariant, but every event that
moves the click reference out of IDLE (only a pointer down on the handle
does) simultaneously sets the mouse reference to ACTIVE. -/
theorem c6_amended (s : GState) (e : GEvent)
    (h : s.click = DragState.IDLE) (h2 : (step e s).click ≠ DragState.IDLE) :
    (step e s).mouse = MouseState.ACTIVE := by
  revert h h2
  revert s e
  decide

/-- C6 amended witness: a pointer down on the handle from the initial state. -/
theorem c6_witness :
    initState.click = DragState.IDLE ∧
    (step GEvent.gimbalDown initState).click ≠ DragState.IDLE ∧
    (step GEvent.gimbalDown initState).mouse = MouseState.ACTIVE :=
  ⟨rfl, by decide, c6_amended initState GEvent.gimbalDown rfl (by decide)⟩

/-- Rounding via floor of the argument plus one half is within one half of
the argument. -/
theorem jsRound_err (q : ℚ) : |(jsRound q : ℚ) - q| ≤ 1 / 2 := by
  have h1 : ((⌊q + 1 / 2⌋ : ℤ) : ℚ) ≤ q + 1 / 2 := Int.floor_le _
  have h2 : q + 1 / 2 < (⌊q + 1 / 2⌋ : ℚ) + 1 := Int.lt_floor_add_one _
  unfold jsRound
  rw [abs_le]
  constructor <;> linarith

/-- C9: the claim fails on the code: with limit 10000 and p equal 3, the
percentage rounds to 0, converting back yields 0, and the deviation 3
exceeds one rounding unit. -/
theorem c9_counterexample :
    (0 : ℚ) < 10000 ∧ (0 : ℚ) ≤ 3 ∧ (3 : ℚ) ≤ 10000 ∧
    ¬ (|getPixelsFromPercentage (getPercentageFromPixels 3 10000) 10000 - 3| ≤ 1) := by
  norm_num [getPixelsFromPercentage, getPercentageFromPixels, jsRound, abs_le]

/-- C9 amended: for every limit above 0 and p between 0 and limit, the round
trip through getPercentageFromPixels and getPixelsFromPercentage deviates
from p by at most one half plus limit over 2000 (hence by at most one
rounding unit whenever the limit is at most 1000). -/
theorem c9_amended (limit p : ℚ) (hL : 0 < limit) (hp0 : 0 ≤ p) (hpL : p ≤ limit) :
    |getPixelsFromPercentage (getPercentageFromPixels p limit) limit - p|
      ≤ 1 / 2 + limit / 2000 := by
  have hL' : limit ≠ 0 := ne_of_gt hL
  unfold getPixelsFromPercentage getPercentageFromPixels
  set r : ℤ := jsRound (p / limit * 1000) with hr
  have h1 := jsRound_err (limit * ((r : ℚ) / 10 / 100))
  have h2 := jsRound_err (p / limit * 1000)
  rw [← hr] at h2
  have hy : limit * ((r : ℚ) / 10 / 100) - p
      = limit / 1000 * ((r : ℚ) - p / limit * 1000) := by
    field_simp
    ring
  have h3 : |limit * ((r : ℚ) / 10 / 100) - p| ≤ limit / 2000 := by
    rw [hy, abs_mul, abs_of_pos (by positivity : (0 : ℚ) < limit / 1000)]
    calc limit / 1000 * |(r : ℚ) - p / limit * 1000|
        ≤ limit / 1000 * (1 / 2) :=
          mul_le_mul_of_nonneg_left h2 (by positivity)
      _ = limit / 2000 := by ring
  calc |(jsRound (limit * ((r : ℚ) / 10 / 100)) : ℚ) - p|
      ≤ |(jsRound (limit * ((r : ℚ) / 10 / 100)) : ℚ) - limit * ((r : ℚ) / 10 / 100)|
          + |limit * ((r : ℚ) / 10 / 100) - p| := abs_sub_le _ _ _
    _ ≤ 1 / 2 + limit / 2000 := by linarith

/-- C9 amended witness: limit 100 and p equal 37 round trip exactly, within
the amended bound. -/
theorem c9_witness :
    (0 : ℚ) < 100 ∧ (0 : ℚ) ≤ 37 ∧ (37 : ℚ) ≤ 100 ∧
    |getPixelsFromPercentage (getPercentageFromPixels 37 100) 100 - 37|
      ≤ 1 / 2 + 100 / 2000 :=
  ⟨by norm_num, by norm_num, by norm_num,
   c9_amended 100 37 (by norm_num) (by norm_num) (by norm_num)⟩

/-- C10: when both the percent and the pixels of the default rule are absent
or 0 (both falsy, including an explicit 0), a double click emits no resize
event and only resets the click reference to IDLE. -/
theorem c10_no_default_noop (defaultPosition : GimbalRule) (limitSize : ℚ)
    (bound : ℚ × ℚ × ℚ)
    (hpc : defaultPosition.percent = none ∨ defaultPosition.percent = some 0)
    (hpx : defaultPosition.pixels = none ∨ defaultPosition.pixels = some 0) :
    handleDoubleClick defaultPosition limitSize bound = (DragState.IDLE, none) := by
  unfold handleDoubleClick
  rcases hpc with h | h <;> rcases hpx with h2 | h2 <;> simp [truthy, h, h2]

/-- C10 witness: default rule with percent 0 and pixels 0 explicitly set. -/
theorem c10_witness :
    (({ percent := some 0, pixels := some 0 } : GimbalRule).percent = none ∨
      ({ percent := some 0, pixels := some 0 } : GimbalRule).percent = some 0) ∧
    (({ percent := some 0, pixels := some 0 } : GimbalRule).pixels = none ∨
      ({ percent := some 0, pixels := some 0 } : GimbalRule).pixels = some 0) ∧
    handleDoubleClick { percent := some 0, pixels := some 0 } 500 (500, 0, 0)
      = (DragState.IDLE, none) :=
  ⟨Or.inr rfl, Or.inr rfl,
   c10_no_default_noop { percent := some 0, pixels := some 0 } 500 (500, 0, 0)
     (Or.inr rfl) (Or.inr rfl)⟩
